import Mathlib

/-!
Verification of the user-management admin panel's store layer.

The definitions below are shallow embeddings of the Redux slices and
selectors of the repository:
  * `selectFilteredUsers`   — usersSlice.js, memoized search filter
  * `selectPaginationData`  — uiReducers (unnamed part_003), pagination selector
  * the users-slice CRUD lifecycle reducers (rejected/fulfilled cases)
  * the auth slice (unnamed part_002) as a labelled transition system
  * the ui slice (unnamed part_003) reducers and the notification
    auto-expiry behaviour of NotificationComponent.jsx
JavaScript strings are modelled as `List Char`, object keys that may be
absent as `Option`, and timestamps as `Nat` milliseconds.
-/

namespace UserMgmt

/-- A user record as held by the Directory Store
(`{id, first_name, last_name, email, avatar}`). -/
structure User where
  id : Nat
  first_name : List Char
  last_name : List Char
  email : List Char
  avatar : List Char
deriving Repr, DecidableEq

/-- `s.toLowerCase()` on a JavaScript string, modelled characterwise. -/
def lowerStr (s : List Char) : List Char := s.map Char.toLower

/-- One user's match test inside `selectFilteredUsers`:
`user.first_name?.toLowerCase().includes(query) || ...` where `query` is
already lower-cased by the caller. -/
def userMatches (query : List Char) (u : User) : Bool :=
  decide (query <:+: lowerStr u.first_name) ||
  decide (query <:+: lowerStr u.last_name) ||
  decide (query <:+: lowerStr u.email)

/-- `selectFilteredUsers` from usersSlice.js: empty query (falsy string)
returns `users` itself; otherwise filter by case-insensitive substring
match on first name, last name or email. -/
def selectFilteredUsers (users : List User) (searchQuery : List Char) : List User :=
  if searchQuery = [] then users
  else
    users.filter (userMatches (lowerStr searchQuery))

/-- Result object of `selectPaginationData` in the ui slice. -/
structure PaginationData where
  currentPage : Nat
  itemsPerPage : Nat
  totalPages : Nat
  totalItems : Nat
  startIndex : Int
  endIndex : Int
  hasNextPage : Bool
  hasPrevPage : Bool
deriving Repr, DecidableEq

/-- `Math.ceil(a / b)` for natural `a` and positive natural `b`. -/
def jsCeilDiv (a b : Nat) : Nat := (a + b - 1) / b

/-- `selectPaginationData` from the ui slice:
`totalPages = Math.max(1, Math.ceil(totalItems / itemsPerPage))`,
`startIndex = (currentPage - 1) * itemsPerPage`,
`endIndex = startIndex + itemsPerPage`, plus navigation flags. -/
def selectPaginationData (currentPage itemsPerPage totalItems : Nat) : PaginationData :=
  let totalPages := max 1 (jsCeilDiv totalItems itemsPerPage)
  let startIndex : Int := ((currentPage : Int) - 1) * (itemsPerPage : Int)
  { currentPage := currentPage
    itemsPerPage := itemsPerPage
    totalPages := totalPages
    totalItems := totalItems
    startIndex := startIndex
    endIndex := startIndex + (itemsPerPage : Int)
    hasNextPage := decide (currentPage < totalPages)
    hasPrevPage := decide (1 < currentPage) }

lemma jsCeilDiv_le_iff (a b c : Nat) (hb : 0 < b) :
    jsCeilDiv a b ≤ c ↔ a ≤ b * c := by
  unfold jsCeilDiv
  rw [Nat.div_le_iff_le_mul_add_pred hb]
  omega

lemma jsCeilDiv_eq_ceil (a b : Nat) (hb : 0 < b) :
    jsCeilDiv a b = ⌈(a : ℚ) / (b : ℚ)⌉₊ := by
  have hbq : (0 : ℚ) < (b : ℚ) := by exact_mod_cast hb
  have h2 : ∀ c : Nat, ⌈(a : ℚ) / (b : ℚ)⌉₊ ≤ c ↔ a ≤ b * c := by
    intro c
    rw [Nat.ceil_le, div_le_iff₀ hbq, mul_comm]
    exact_mod_cast Iff.rfl
  exact le_antisymm
    ((jsCeilDiv_le_iff a b _ hb).2 ((h2 _).1 le_rfl))
    ((h2 _).2 ((jsCeilDiv_le_iff a b _ hb).1 le_rfl))

/-- **C2.** For every collection `U` and query `q` the filtered view
contains exactly the records of `U` whose first name, last name or email
contains `q` case-insensitively; the result is a sublist of `U` (so the
original order is preserved); and the empty query returns `U` itself. -/
theorem C2_filtered_view_exact (U : List User) (q : List Char) :
    selectFilteredUsers U [] = U ∧
    (∀ u, u ∈ selectFilteredUsers U q ↔
        u ∈ U ∧ (lowerStr q <:+: lowerStr u.first_name ∨
                 lowerStr q <:+: lowerStr u.last_name ∨
                 lowerStr q <:+: lowerStr u.email)) ∧
    (selectFilteredUsers U q).Sublist U := by
  refine ⟨by simp [selectFilteredUsers], ?_, ?_⟩
  · intro u
    by_cases hq : q = []
    · subst hq
      simp only [selectFilteredUsers, if_pos rfl]
      refine ⟨fun hu => ⟨hu, Or.inl ⟨[], lowerStr u.first_name, by simp [lowerStr]⟩⟩,
        fun h => h.1⟩
    · simp only [selectFilteredUsers, if_neg hq, List.mem_filter, userMatches,
        Bool.or_eq_true, decide_eq_true_iff]
      tauto
  · by_cases hq : q = []
    · subst hq
      simp [selectFilteredUsers]
    · simp only [selectFilteredUsers, if_neg hq]
      exact List.filter_sublist U

/-- **C3.** For all `totalItems`, `itemsPerPage > 0` and `currentPage`, the
pagination derivation returns `totalPages = max(1, ceil(totalItems / itemsPerPage))`
(the ceiling taken over the rationals), `startIndex = (currentPage - 1) * itemsPerPage`
and `endIndex = startIndex + itemsPerPage`; `totalPages` is never zero; and
the two concrete cases of the spec: `paginate(25,10,1)` yields
`{totalPages := 3, startIndex := 0, endIndex := 10}` and `paginate(0,10,1)`
yields `{totalPages := 1, startIndex := 0, endIndex := 10}`. -/
theorem C3_pagination_formula (totalItems itemsPerPage currentPage : Nat)
    (hpos : 0 < itemsPerPage) :
    (selectPaginationData currentPage itemsPerPage totalItems).totalPages
        = max 1 ⌈(totalItems : ℚ) / (itemsPerPage : ℚ)⌉₊ ∧
    (selectPaginationData currentPage itemsPerPage totalItems).startIndex
        = ((currentPage : Int) - 1) * (itemsPerPage : Int) ∧
    (selectPaginationData currentPage itemsPerPage totalItems).endIndex
        = ((currentPage : Int) - 1) * (itemsPerPage : Int) + (itemsPerPage : Int) ∧
    1 ≤ (selectPaginationData currentPage itemsPerPage totalItems).totalPages ∧
    selectPaginationData 1 10 25 =
      { currentPage := 1, itemsPerPage := 10, totalPages := 3, totalItems := 25,
        startIndex := 0, endIndex := 10, hasNextPage := true, hasPrevPage := false } ∧
    selectPaginationData 1 10 0 =
      { currentPage := 1, itemsPerPage := 10, totalPages := 1, totalItems := 0,
        startIndex := 0, endIndex := 10, hasNextPage := false, hasPrevPage := false } := by
  refine ⟨?_, rfl, rfl, ?_, by decide, by decide⟩
  · simp only [selectPaginationData, jsCeilDiv_eq_ceil totalItems itemsPerPage hpos]
  · exact le_max_left 1 _

/-- Witness for `C3_pagination_formula` at `totalItems = 25`,
`itemsPerPage = 10`, `currentPage = 1`. -/
theorem C3_pagination_formula_witness :
    (selectPaginationData 1 10 25).totalPages = max 1 ⌈(25 : ℚ) / (10 : ℚ)⌉₊ ∧
    1 ≤ (selectPaginationData 1 10 25).totalPages :=
  ⟨(C3_pagination_formula 25 10 1 (by decide)).1,
   (C3_pagination_formula 25 10 1 (by decide)).2.2.2.1⟩

/-- Directory Store state (`usersSlice` initial shape:
`{users, loading, error, searchQuery}`). -/
structure UsersState where
  users : List User
  loading : Bool
  error : Option (List Char)
  searchQuery : List Char
deriving Repr, DecidableEq

/-- `usersSlice` initial state. -/
def usersInitialState : UsersState :=
  { users := [], loading := false, error := none, searchQuery := [] }

/-- `deleteUser.fulfilled`: clears loading, removes every record whose id
matches the payload (`users.filter(u => u.id != payload)`), clears error. -/
def deleteUserFulfilled (s : UsersState) (userId : Nat) : UsersState :=
  { s with loading := false
           users := s.users.filter (fun u => decide (u.id ≠ userId))
           error := none }

/-- `fetchUsers.rejected`: clears loading and stores the failure message. -/
def fetchUsersRejected (s : UsersState) (msg : List Char) : UsersState :=
  { s with loading := false, error := some msg }

/-- `createUser.rejected`: clears loading and stores the failure message. -/
def createUserRejected (s : UsersState) (msg : List Char) : UsersState :=
  { s with loading := false, error := some msg }

/-- `updateUser.rejected`: clears loading and stores the failure message. -/
def updateUserRejected (s : UsersState) (msg : List Char) : UsersState :=
  { s with loading := false, error := some msg }

/-- `deleteUser.rejected`: clears loading and stores the failure message. -/
def deleteUserRejected (s : UsersState) (msg : List Char) : UsersState :=
  { s with loading := false, error := some msg }

/-- Two distinct records sharing the id 1, to exercise `deleteUser.fulfilled`
on a collection with a duplicated id. -/
def dupUserA : User :=
  { id := 1, first_name := "Janet".toList, last_name := "Weaver".toList,
    email := "janet@example.com".toList, avatar := "a1".toList }

/-- Second record with the same id as `dupUserA`. -/
def dupUserB : User :=
  { id := 1, first_name := "Emma".toList, last_name := "Wong".toList,
    email := "emma@example.com".toList, avatar := "a2".toList }

/-- **C5, counterexample.** On a collection holding two records with id 1,
`delete(1)` removes both, so the length drops by 2, not by exactly 1 as the
claim states for every collection with the id present. -/
theorem C5_delete_counterexample :
    (∃ u ∈ [dupUserA, dupUserB], u.id = 1) ∧
    ({ usersInitialState with users := [dupUserA, dupUserB] } |>
        (deleteUserFulfilled · 1)).users.length + 1 ≠
      ([dupUserA, dupUserB] : List User).length := by
  constructor
  · exact ⟨dupUserA, List.mem_cons_self _ _, rfl⟩
  · decide

lemma filter_ne_id_length (l : List User) (userId : Nat)
    (hnd : (l.map User.id).Nodup) (hex : ∃ u ∈ l, u.id = userId) :
    (l.filter (fun u => decide (u.id ≠ userId))).length + 1 = l.length := by
  induction l with
  | nil => simp at hex
  | cons a l ih =>
    simp only [List.map_cons, List.nodup_cons, List.mem_map] at hnd
    by_cases ha : a.id = userId
    · have hrest : ∀ u ∈ l, decide (u.id ≠ userId) = true := by
        intro u hu
        simp only [decide_eq_true_iff]
        intro hcontra
        exact hnd.1 ⟨u, hu, by rw [hcontra, ha]⟩
      rw [List.filter_cons_of_neg (by simp [ha]), List.filter_eq_self.2 hrest]
      simp
    · rw [List.filter_cons_of_pos (by simp [ha])]
      have hex' : ∃ u ∈ l, u.id = userId := by
        rcases hex with ⟨u, hu, hid⟩
        rcases List.mem_cons.1 hu with h | h
        · exact absurd (h ▸ hid) ha
        · exact ⟨u, h, hid⟩
      simp only [List.length_cons]
      rw [ih hnd.2 hex']

/-- **C5, amended.** Provided the record ids in the collection are pairwise
distinct: after `delete(id)` where a record with that id was present the
collection length decreases by exactly 1 and no record with that id remains;
`delete` of an absent id leaves the whole state unchanged except that
`loading` is cleared and `error` reset (the collection itself is unchanged). -/
theorem C5_delete_spec_amended (s : UsersState) (userId : Nat)
    (hnd : (s.users.map User.id).Nodup) :
    ((∃ u ∈ s.users, u.id = userId) →
        (deleteUserFulfilled s userId).users.length + 1 = s.users.length ∧
        ∀ u ∈ (deleteUserFulfilled s userId).users, u.id ≠ userId) ∧
    ((∀ u ∈ s.users, u.id ≠ userId) →
        (deleteUserFulfilled s userId).users = s.users) := by
  constructor
  · intro hex
    constructor
    · exact filter_ne_id_length s.users userId hnd hex
    · intro u hu
      simp only [deleteUserFulfilled, List.mem_filter, decide_eq_true_iff] at hu
      exact hu.2
  · intro habs
    simp only [deleteUserFulfilled]
    exact List.filter_eq_self.2 fun u hu => by
      simpa using habs u hu

/-- Witness for `C5_delete_spec_amended` on the two-element collection
`[Janet (id 1), Emma (id 2)]` with `delete(1)`. -/
theorem C5_delete_spec_amended_witness :
    (deleteUserFulfilled
        { usersInitialState with
            users := [dupUserA, { dupUserB with id := 2 }] } 1).users.length + 1 = 2 ∧
    ∀ u ∈ (deleteUserFulfilled
        { usersInitialState with
            users := [dupUserA, { dupUserB with id := 2 }] } 1).users, u.id ≠ 1 :=
  (C5_delete_spec_amended
      { usersInitialState with users := [dupUserA, { dupUserB with id := 2 }] } 1
      (by simp [dupUserA, dupUserB])).1
    ⟨dupUserA, by simp, rfl⟩

/-- **C6.** For every Directory Store state and failure message, each of the
four rejected transitions (fetchAll, create, update, delete) leaves the users
collection and the search query exactly as they were, sets `error` to the
failure message, and clears the loading flag. -/
theorem C6_rejected_frame (s : UsersState) (msg : List Char) :
    (fetchUsersRejected s msg).users = s.users ∧
    (fetchUsersRejected s msg).searchQuery = s.searchQuery ∧
    (fetchUsersRejected s msg).error = some msg ∧
    (fetchUsersRejected s msg).loading = false ∧
    (createUserRejected s msg).users = s.users ∧
    (createUserRejected s msg).searchQuery = s.searchQuery ∧
    (createUserRejected s msg).error = some msg ∧
    (createUserRejected s msg).loading = false ∧
    (updateUserRejected s msg).users = s.users ∧
    (updateUserRejected s msg).searchQuery = s.searchQuery ∧
    (updateUserRejected s msg).error = some msg ∧
    (updateUserRejected s msg).loading = false ∧
    (deleteUserRejected s msg).users = s.users ∧
    (deleteUserRejected s msg).searchQuery = s.searchQuery ∧
    (deleteUserRejected s msg).error = some msg ∧
    (deleteUserRejected s msg).loading = false := by
  refine ⟨rfl, rfl, rfl, rfl, rfl, rfl, rfl, rfl, rfl, rfl, rfl, rfl, rfl, rfl, rfl, rfl⟩

/-- The auth slice's `user` payload (`{email, name?}`). -/
structure AuthUser where
  email : List Char
  name : Option (List Char)
deriving Repr, DecidableEq

/-- Session Store state, the auth slice's initial shape:
`{user, token, isAuthenticated, loading, error, loginAttempts, lastLoginAttempt}`. -/
structure AuthState where
  user : Option AuthUser
  token : Option (List Char)
  isAuthenticated : Bool
  loading : Bool
  error : Option (List Char)
  loginAttempts : Nat
  lastLoginAttempt : Option Nat
deriving Repr, DecidableEq

/-- The auth slice's initial state. -/
def authInitialState : AuthState :=
  { user := none, token := none, isAuthenticated := false, loading := false,
    error := none, loginAttempts := 0, lastLoginAttempt := none }

/-- Every action the auth slice reduces: its own reducers plus the
pending/fulfilled/rejected cases of the four thunks. Success payloads carry
the token the thunk returns (`data.token` for login/register, the stored
token for the restore-session check). -/
inductive AuthAction where
  | logoutAction
  | clearErrorAction
  | resetLoginAttemptsAction
  | incrementLoginAttemptsAction (now : Nat)
  | updateUserAction (email : Option (List Char)) (name : Option (List Char))
  | loginPending
  | loginFulfilled (token : List Char) (email : List Char)
  | loginRejected (msg : List Char) (now : Nat)
  | registerPending
  | registerFulfilled (token : List Char) (email : List Char)
  | registerRejected (msg : List Char)
  | logoutPending
  | logoutFulfilled
  | logoutRejected (msg : List Char)
  | checkPending
  | checkFulfilled (token : List Char) (u : AuthUser)
  | checkRejected
deriving Repr, DecidableEq

/-- Shallow-merge of an `updateUser` payload over an existing user object
(`{...state.user, ...action.payload}`): a key present in the payload wins. -/
def mergeAuthUser (u : AuthUser) (email : Option (List Char))
    (name : Option (List Char)) : AuthUser :=
  { email := email.getD u.email
    name := match name with
            | some v => some v
            | none => u.name }

/-- The auth slice reducer, one case per action, field updates transcribed
from the source. -/
def authReducer (s : AuthState) (a : AuthAction) : AuthState :=
  match a with
  | .logoutAction =>
      { s with user := none, token := none, isAuthenticated := false, error := none }
  | .clearErrorAction => { s with error := none }
  | .resetLoginAttemptsAction => { s with loginAttempts := 0, lastLoginAttempt := none }
  | .incrementLoginAttemptsAction now =>
      { s with loginAttempts := s.loginAttempts + 1, lastLoginAttempt := some now }
  | .updateUserAction email name =>
      match s.user with
      | some u => { s with user := some (mergeAuthUser u email name) }
      | none => s
  | .loginPending => { s with loading := true, error := none }
  | .loginFulfilled token email =>
      { s with loading := false, user := some { email := email, name := none },
               token := some token, isAuthenticated := true, error := none,
               loginAttempts := 0, lastLoginAttempt := none }
  | .loginRejected msg now =>
      { s with loading := false, error := some msg,
               loginAttempts := s.loginAttempts + 1, lastLoginAttempt := some now }
  | .registerPending => { s with loading := true, error := none }
  | .registerFulfilled token email =>
      { s with loading := false, user := some { email := email, name := none },
               token := some token, isAuthenticated := true, error := none }
  | .registerRejected msg => { s with loading := false, error := some msg }
  | .logoutPending => { s with loading := true }
  | .logoutFulfilled =>
      { s with loading := false, user := none, token := none,
               isAuthenticated := false, error := none,
               loginAttempts := 0, lastLoginAttempt := none }
  | .logoutRejected msg =>
      { s with loading := false, error := some msg, user := none, token := none,
               isAuthenticated := false }
  | .checkPending => { s with loading := true }
  | .checkFulfilled token u =>
      { s with loading := false, user := some u, token := some token,
               isAuthenticated := true, error := none }
  | .checkRejected =>
      { s with loading := false, user := none, token := none,
               isAuthenticated := false }

/-- Session Store states reachable from the initial state under any
sequence of auth-slice actions. -/
inductive AuthReachable : AuthState → Prop where
  | init : AuthReachable authInitialState
  | step (s : AuthState) (a : AuthAction) :
      AuthReachable s → AuthReachable (authReducer s a)

/-- **C7.** In every reachable Session Store state, `isAuthenticated` is
true exactly when a token is present: no reachable state has
`isAuthenticated` true with an absent token, nor a present token with
`isAuthenticated` false. Tokens become present only through the success
transitions (login / register / restore-session check), which all set the
flag together with the token. -/
theorem C7_auth_token_iff (s : AuthState) (h : AuthReachable s) :
    s.isAuthenticated = s.token.isSome := by
  induction h with
  | init => rfl
  | step s a _ ih =>
    cases a with
    | updateUserAction email name =>
      simp only [authReducer]
      cases hu : s.user <;> simp [ih]
    | _ => simp [authReducer, ih]

/-- Witness for `C7_auth_token_iff` on the concrete two-step trace
initial → `loginFulfilled` → `incrementLoginAttempts`. -/
theorem C7_auth_token_iff_witness :
    (authReducer (authReducer authInitialState
        (.loginFulfilled "tok123".toList "eve.holt@reqres.in".toList))
      (.incrementLoginAttemptsAction 42)).isAuthenticated =
    (authReducer (authReducer authInitialState
        (.loginFulfilled "tok123".toList "eve.holt@reqres.in".toList))
      (.incrementLoginAttemptsAction 42)).token.isSome :=
  C7_auth_token_iff _
    (AuthReachable.step _ _ (AuthReachable.step _ _ AuthReachable.init))

/-- A queued notification as built by `addNotification`
(`{id, type, message, duration, timestamp}`). -/
structure Notification where
  id : Nat
  type : List Char
  message : List Char
  duration : Nat
  timestamp : Nat
deriving Repr, DecidableEq

/-- An `addNotification` action payload; `type` and `duration` keys may be
absent (`none`). -/
structure NotifPayload where
  type : Option (List Char)
  message : List Char
  duration : Option Nat
deriving Repr, DecidableEq

/-- The notification object `addNotification` pushes. In the source the
object literal lists defaults (`type: payload.type || 'info'`,
`duration: payload.duration || 5000`) and then spreads `...action.payload`
last, so any key present in the payload — including `duration: 0` —
overrides the default; an absent key falls back to it. `freshId` stands for
`Date.now() + Math.random()` and `now` for `Date.now()`. -/
def mkNotification (freshId now : Nat) (p : NotifPayload) : Notification :=
  { id := freshId
    type := p.type.getD "info".toList
    message := p.message
    duration := p.duration.getD 5000
    timestamp := now }

/-- View-State Store state: the ui slice's initial shape. -/
structure UIState where
  viewMode : List Char
  isUserModalOpen : Bool
  modalMode : List Char
  selectedUser : Option User
  deleteConfirmUser : Option User
  currentPage : Nat
  itemsPerPage : Nat
  notifications : List Notification
  isDeleting : Bool
  isSaving : Bool
  sidebarOpen : Bool
  theme : List Char
  sortField : Option (List Char)
  sortDirection : List Char
  activeFilters : List (List Char × List Char)
deriving Repr, DecidableEq

/-- The ui slice's `initialState`. -/
def uiInitialState : UIState :=
  { viewMode := "table".toList
    isUserModalOpen := false
    modalMode := "create".toList
    selectedUser := none
    deleteConfirmUser := none
    currentPage := 1
    itemsPerPage := 10
    notifications := []
    isDeleting := false
    isSaving := false
    sidebarOpen := false
    theme := "light".toList
    sortField := none
    sortDirection := "asc".toList
    activeFilters := [] }

/-- `closeUserModal`: closes the modal, resets the mode to `'create'` and
clears the selected user. -/
def closeUserModal (s : UIState) : UIState :=
  { s with isUserModalOpen := false, modalMode := "create".toList,
           selectedUser := none }

/-- `setItemsPerPage`: stores the payload and resets `currentPage` to 1. -/
def setItemsPerPage (s : UIState) (n : Nat) : UIState :=
  { s with itemsPerPage := n, currentPage := 1 }

/-- `addNotification`: appends the built notification to the queue. -/
def addNotification (s : UIState) (freshId now : Nat) (p : NotifPayload) : UIState :=
  { s with notifications := s.notifications ++ [mkNotification freshId now p] }

/-- `resetUIState`: returns `{...initialState, theme: state.theme}`. -/
def resetUIState (s : UIState) : UIState :=
  { uiInitialState with theme := s.theme }

/-- Auto-expiry as implemented by `NotificationComponent`: for each queued
notification with `duration > 0` a timer dispatches `removeNotification`
once the duration has elapsed; a notification with `duration = 0` gets no
timer. `autoExpired now n` says the timer for `n` has already fired at
clock value `now`. -/
def autoExpired (now : Nat) (n : Notification) : Bool :=
  decide (0 < n.duration) && decide (n.timestamp + n.duration ≤ now)

/-- The notification queue as visible at clock value `now`, after all due
auto-removal timers have fired. -/
def visibleNotifications (now : Nat) (queue : List Notification) : List Notification :=
  queue.filter (fun n => ! autoExpired now n)

/-- **C4.** A notification added with `duration = 0` is still in the queue
at every later clock value (it is never auto-removed), while one added with
`duration = 5000` is absent from the queue at any clock value 5000 ms or
more after its creation. -/
theorem C4_notification_expiry (s : UIState) (freshId now t : Nat) (p : NotifPayload) :
    (p.duration = some 0 →
      mkNotification freshId now p ∈
        visibleNotifications t (addNotification s freshId now p).notifications) ∧
    (p.duration = some 5000 → now + 5000 ≤ t →
      mkNotification freshId now p ∉
        visibleNotifications t (addNotification s freshId now p).notifications) := by
  constructor
  · intro h0
    simp only [visibleNotifications, addNotification, List.mem_filter]
    refine ⟨List.mem_append_right _ (List.mem_singleton_self _), ?_⟩
    simp [autoExpired, mkNotification, h0]
  · intro h5 ht hmem
    simp only [visibleNotifications, List.mem_filter] at hmem
    have : autoExpired t (mkNotification freshId now p) = true := by
      simp [autoExpired, mkNotification, h5]
      omega
    simp [this] at hmem

/-- Witness for `C4_notification_expiry`: a `duration = 0` notification is
still visible far in the future, and a `duration = 5000` one is gone 5100 ms
after creation. -/
theorem C4_notification_expiry_witness :
    (mkNotification 1 100 { type := none, message := "kept".toList, duration := some 0 } ∈
      visibleNotifications 999999
        (addNotification uiInitialState 1 100
          { type := none, message := "kept".toList, duration := some 0 }).notifications) ∧
    (mkNotification 2 100 { type := none, message := "gone".toList, duration := some 5000 } ∉
      visibleNotifications 5200
        (addNotification uiInitialState 2 100
          { type := none, message := "gone".toList, duration := some 5000 }).notifications) :=
  ⟨(C4_notification_expiry uiInitialState 1 100 999999
      { type := none, message := "kept".toList, duration := some 0 }).1 rfl,
   (C4_notification_expiry uiInitialState 2 100 5200
      { type := none, message := "gone".toList, duration := some 5000 }).2 rfl (by omega)⟩

/-- **C8.** For every prior modal state, `closeModal()` yields a state with
the modal closed, mode `'create'` and no selected user. -/
theorem C8_close_modal_resets (s : UIState) :
    (closeUserModal s).isUserModalOpen = false ∧
    (closeUserModal s).modalMode = "create".toList ∧
    (closeUserModal s).selectedUser = none :=
  ⟨rfl, rfl, rfl⟩

/-- **C9.** For every UI state and every `n`, `setItemsPerPage(n)` stores
`n` as the page size and always resets `currentPage` to 1, regardless of
the prior page. -/
theorem C9_set_items_per_page_resets_page (s : UIState) (n : Nat) :
    (setItemsPerPage s n).itemsPerPage = n ∧
    (setItemsPerPage s n).currentPage = 1 :=
  ⟨rfl, rfl⟩

/-- **C10.** `resetUIState()` returns every View-State field (view mode,
modal state, delete target, pagination, notifications, loading flags,
sidebar, sorting, filters) to its initial value while leaving the theme at
its prior value. -/
theorem C10_reset_ui_preserves_theme (s : UIState) :
    (resetUIState s).theme = s.theme ∧
    (resetUIState s).viewMode = uiInitialState.viewMode ∧
    (resetUIState s).isUserModalOpen = uiInitialState.isUserModalOpen ∧
    (resetUIState s).modalMode = uiInitialState.modalMode ∧
    (resetUIState s).selectedUser = uiInitialState.selectedUser ∧
    (resetUIState s).deleteConfirmUser = uiInitialState.deleteConfirmUser ∧
    (resetUIState s).currentPage = uiInitialState.currentPage ∧
    (resetUIState s).itemsPerPage = uiInitialState.itemsPerPage ∧
    (resetUIState s).notifications = uiInitialState.notifications ∧
    (resetUIState s).isDeleting = uiInitialState.isDeleting ∧
    (resetUIState s).isSaving = uiInitialState.isSaving ∧
    (resetUIState s).sidebarOpen = uiInitialState.sidebarOpen ∧
    (resetUIState s).sortField = uiInitialState.sortField ∧
    (resetUIState s).sortDirection = uiInitialState.sortDirection ∧
    (resetUIState s).activeFilters = uiInitialState.activeFilters :=
  ⟨rfl, rfl, rfl, rfl, rfl, rfl, rfl, rfl, rfl, rfl, rfl, rfl, rfl, rfl, rfl⟩

/-- The state a viewer of the users list depends on: the Directory Store's
collection and search query together with the ui slice's pagination cursor.
`itemsPerPage` stays 10 in the app (no component dispatches `setItemsPerPage`). -/
structure ListPageState where
  users : List User
  searchQuery : List Char
  currentPage : Nat
  itemsPerPage : Nat
deriving Repr, DecidableEq

/-- Combined initial state: empty collection, empty query, page 1, size 10. -/
def listPageInitial : ListPageState :=
  { users := [], searchQuery := [], currentPage := 1, itemsPerPage := 10 }

/-- `totalPages` as `selectPaginationData` computes it: from the length of
the UNFILTERED collection (`state.users?.users?.length || 0`). -/
def fullTotalPages (s : ListPageState) : Nat :=
  max 1 (jsCeilDiv s.users.length s.itemsPerPage)

/-- The number of pages of the filtered view — the spec's notion of the
"last page of the filtered view" that `currentPage` must stay within. This
is the comparator the claim is judged against; the code computes
`fullTotalPages` instead. -/
def filteredTotalPages (s : ListPageState) : Nat :=
  max 1 (jsCeilDiv (selectFilteredUsers s.users s.searchQuery).length s.itemsPerPage)

/-- One UI-level event of UserList, with the exact guards under which the
component can dispatch it:
* `fetchSuccess` — `fetchUsers.fulfilled` (initial load or a retry) replaces
  the collection and leaves the page untouched;
* `createSuccess` / `deleteSuccess` — `handleModalSubmit` / `confirmDelete`
  apply the collection change and then dispatch `resetPagination` (page 1);
* `searchChange` — `handleSearch` sets the query and dispatches
  `resetPagination`;
* `pageChange n` — a numbered pagination button: rendered only when the
  filtered list is longer than one page, for `1 ≤ n ≤ totalPages` with
  `totalPages` from `selectPaginationData`, and only when the button is
  shown (`n == 1`, `n == totalPages`, or within 1 of the current page);
* `nextPage` / `prevPage` — the arrow buttons with their range checks. -/
inductive ListPageStep : ListPageState → ListPageState → Prop where
  | fetchSuccess (s : ListPageState) (us : List User) :
      ListPageStep s { s with users := us }
  | createSuccess (s : ListPageState) (u : User) :
      ListPageStep s { s with users := s.users ++ [u], currentPage := 1 }
  | deleteSuccess (s : ListPageState) (userId : Nat) :
      ListPageStep s
        { s with users := s.users.filter (fun u => decide (u.id ≠ userId)),
                 currentPage := 1 }
  | searchChange (s : ListPageState) (q : List Char) :
      ListPageStep s { s with searchQuery := q, currentPage := 1 }
  | pageChange (s : ListPageState) (n : Nat)
      (hShown : s.itemsPerPage < (selectFilteredUsers s.users s.searchQuery).length)
      (hLo : 1 ≤ n) (hHi : n ≤ fullTotalPages s)
      (hBtn : n = 1 ∨ n = fullTotalPages s ∨
        (n ≤ s.currentPage + 1 ∧ s.currentPage ≤ n + 1)) :
      ListPageStep s { s with currentPage := n }
  | nextPage (s : ListPageState)
      (hShown : s.itemsPerPage < (selectFilteredUsers s.users s.searchQuery).length)
      (hHi : s.currentPage < fullTotalPages s) :
      ListPageStep s { s with currentPage := s.currentPage + 1 }
  | prevPage (s : ListPageState)
      (hShown : s.itemsPerPage < (selectFilteredUsers s.users s.searchQuery).length)
      (hLo : 1 < s.currentPage) :
      ListPageStep s { s with currentPage := s.currentPage - 1 }

/-- List-page states reachable from the initial state under UI events. -/
inductive ListPageReachable : ListPageState → Prop where
  | init : ListPageReachable listPageInitial
  | step (s s' : ListPageState) :
      ListPageReachable s → ListPageStep s s' → ListPageReachable s'

/-- A concrete user record with id `i + 1`. -/
def demoUser (i : Nat) : User :=
  { id := i + 1, first_name := "First".toList, last_name := "Last".toList,
    email := "user@example.com".toList, avatar := "av".toList }

/-- A fetched collection of 21 users (3 pages of 10). -/
def demoUsers21 : List User := (List.range 21).map demoUser

/-- A re-fetched, smaller collection of 5 users (1 page). -/
def demoUsers5 : List User := (List.range 5).map demoUser

/-- State after the initial fetch of 21 users. -/
def stateAfterFetch21 : ListPageState := { listPageInitial with users := demoUsers21 }

/-- State after the viewer navigates to page 3. -/
def stateOnPage3 : ListPageState := { stateAfterFetch21 with currentPage := 3 }

/-- State after a retry fetch returns only 5 users while on page 3. -/
def stateShrunk : ListPageState := { stateOnPage3 with users := demoUsers5 }

/-- **C1, failing run.** The trace
fetch 21 users → click page 3 → retry fetch returns 5 users
is reachable; its last transition shrinks the filtered collection from 21
records to 5, yet `currentPage` stays 3 although the filtered view now has
a single page — the state is NOT re-clamped to `[1, totalPages]` of the
filtered view, contradicting the claimed invariant. -/
theorem C1_stale_page_after_shrink :
    ListPageReachable stateOnPage3 ∧
    ListPageStep stateOnPage3 stateShrunk ∧
    ListPageReachable stateShrunk ∧
    (selectFilteredUsers stateShrunk.users stateShrunk.searchQuery).length <
      (selectFilteredUsers stateOnPage3.users stateOnPage3.searchQuery).length ∧
    stateShrunk.currentPage = 3 ∧
    filteredTotalPages stateShrunk = 1 := by
  have h1 : ListPageReachable stateAfterFetch21 :=
    ListPageReachable.step _ _ ListPageReachable.init
      (ListPageStep.fetchSuccess listPageInitial demoUsers21)
  have h2 : ListPageReachable stateOnPage3 :=
    ListPageReachable.step _ _ h1
      (ListPageStep.pageChange stateAfterFetch21 3 (by decide) (by decide) (by decide)
        (by decide))
  have hstep : ListPageStep stateOnPage3 stateShrunk :=
    ListPageStep.fetchSuccess stateOnPage3 demoUsers5
  exact ⟨h2, hstep, ListPageReachable.step _ _ h2 hstep, by decide, rfl, by decide⟩

end UserMgmt
